import Mathlib

set_option maxRecDepth 8000

/-!
Verification of the scraper core of the NaverBlog repository (`naver_map.py`):
URL place-id extraction, section-text filtering, the crawl orchestration of the
four place tabs, the expandable business-hours trigger, and the field merger.
Browser/DOM effects (Playwright `frame.evaluate`, navigations) are embedded as
explicit oracle inputs and navigation traces; all pure string processing is
translated directly from the source.
-/

/-- ASCII whitespace class used by Python `str.strip()` on the strings involved. -/
def isPySpace (c : Char) : Bool :=
  c = ' ' || c = '\t' || c = '\n' || c = '\r' || c = '\x0b' || c = '\x0c'

/-- Python `str.strip()`. -/
def pyStrip (s : String) : String :=
  String.mk (((s.data.dropWhile isPySpace).reverse.dropWhile isPySpace).reverse)

/-- Whether `pat` occurs at the head of `s` (list form of `str.startswith`). -/
def litIsPrefixOf : List Char → List Char → Bool
  | [], _ => true
  | _ :: _, [] => false
  | a :: as, b :: bs => a = b && litIsPrefixOf as bs

/-- Whether `pat` occurs somewhere inside `s` (Python `pat in s`, JS `includes`). -/
def hasSubList (pat : List Char) : List Char → Bool
  | [] => pat.isEmpty
  | c :: rest => litIsPrefixOf pat (c :: rest) || hasSubList pat rest

/-- Python `pat in s` on strings. -/
def strContainsSub (s pat : String) : Bool := hasSubList pat.data s.data

/-- `str.lower()` (ASCII case folding, which covers the hosts involved). -/
def strLower (s : String) : String := String.mk (s.data.map Char.toLower)

/-- Characters allowed in a URL scheme by `urllib.parse`. -/
def isSchemeChar (c : Char) : Bool := c.isAlphanum || c = '+' || c = '-' || c = '.'

/-- Drop a leading `scheme:` if present, as `urllib.parse.urlparse` splits it. -/
def dropScheme (s : List Char) : List Char :=
  let pre := s.takeWhile (fun c => c ≠ ':')
  if pre.length < s.length && !pre.isEmpty && pre.head?.any Char.isAlpha
      && pre.all isSchemeChar then
    s.drop (pre.length + 1)
  else s

/-- Modelled after `urllib.parse.urlparse(url).netloc`: the authority is present
only after a `//` following the optional scheme and runs to the next `/?#`. -/
def pyNetloc (url : String) : String :=
  let rest := dropScheme url.data
  if litIsPrefixOf "//".data rest then
    String.mk ((rest.drop 2).takeWhile (fun c => c ≠ '/' && c ≠ '?' && c ≠ '#'))
  else ""

/-- Collapse every run of 3 or more newlines to exactly two, keeping shorter
runs; `k` counts the newlines already emitted in the current run.  This is
`re.sub(r"\n\x7b3,\x7d", "\n\n", text)`. -/
def squeezeNewlines : Nat → List Char → List Char
  | _, [] => []
  | k, c :: rest =>
    if c = '\n' then
      if k ≥ 2 then squeezeNewlines (k + 1) rest
      else c :: squeezeNewlines (k + 1) rest
    else c :: squeezeNewlines 0 rest

/-- `_normalize_text`: CR to LF, collapse newline runs, strip. -/
def normalize_text (s : String) : String :=
  pyStrip (String.mk (squeezeNewlines 0 (s.data.map fun c => if c = '\r' then '\n' else c)))

/-- Python errors raised by the module: both failure messages of
`extract_place_id` are `ValueError`s, the crawl failures are `RuntimeError`s;
an error value carries the exception class and its message. -/
inductive PyError where
  | valueError (msg : String)
  | runtimeError (msg : String)
deriving DecidableEq

deriving instance DecidableEq for Except

def validationMsg : String := "네이버 지도 URL이 비어 있습니다."

def notFoundMsg : String := "URL에서 placeId를 찾지 못했습니다."

/-- Try to match `lit` followed by at least one digit at the head of `s`;
on success return the maximal digit run (the greedy capture of `lit(\d+)`). -/
def litMatchAt (lit s : List Char) : Option (List Char) :=
  if litIsPrefixOf lit s then
    let ds := (s.drop lit.length).takeWhile Char.isDigit
    if ds.isEmpty then none else some ds
  else none

/-- `re.search` of `lit(\d+)`: scan left to right, return the first capture. -/
def searchLitDigits (lit : List Char) : List Char → Option (List Char)
  | [] => none
  | c :: rest =>
    match litMatchAt lit (c :: rest) with
    | some ds => some ds
    | none => searchLitDigits lit rest

/-- `extract_place_id`.  The one network effect — following a `naver.me`
short-link redirect via `urlopen(...).geturl()` — is passed in as the
`resolve` oracle; everything else is translated from the source. -/
def extract_place_id (resolve : String → String) (url : String) : Except PyError String :=
  if pyStrip url = "" then .error (.valueError validationMsg)
  else
    let raw := pyStrip url
    let host := strLower (pyNetloc raw)
    let raw := if strContainsSub host "naver.me" then resolve raw else raw
    match searchLitDigits "/entry/place/".data raw.data with
    | some ds => .ok (String.mk ds)
    | none =>
      match searchLitDigits "/place/".data raw.data with
      | some ds => .ok (String.mk ds)
      | none =>
        match searchLitDigits "placeId=".data raw.data with
        | some ds => .ok (String.mk ds)
        | none => .error (.valueError notFoundMsg)

/-- One structured content block collected from a `.place_section` node:
its header text (possibly empty) and its full inner text, as delivered by the
collection script of `_extract_tab_sections_text`. -/
structure SectionBlock where
  title : String
  text : String

/-- `re.sub(r"\d+$", "", s)` on an already stripped header: remove the maximal
run of trailing digits (badge counters). -/
def stripTrailingDigits (s : String) : String :=
  String.mk ((s.data.reverse.dropWhile Char.isDigit).reverse)

def actionTokens : List String := ["출발", "도착", "저장", "거리뷰", "공유"]

/-- The per-block body of the loop of `_extract_tab_sections_text`: normalize,
apply the noise filters in source order, then prepend the cleaned header when
the body does not already start with it.  Returns `none` for a discarded
block. -/
def processBlock (b : SectionBlock) : Option String :=
  let rawTitle := pyStrip b.title
  let title := pyStrip (stripTrailingDigits rawTitle)
  let text := normalize_text b.text
  if text = "" then none
  else if (strContainsSub text "알림받기" && strContainsSub text "출발"
            && strContainsSub text "도착")
          || (actionTokens.countP fun tok => strContainsSub text tok) ≥ 3
          || strContainsSub text "페이지 닫기" then none
  else if strContainsSub text "정보 수정 제안하기" then none
  else if litIsPrefixOf "메뉴판 이미지로 보기".data text.data then none
  else if text.length < 10 then none
  else if title != "" && !(litIsPrefixOf title.data text.data) then some (title ++ "\n" ++ text)
  else some text

/-- `_extract_tab_sections_text` after the DOM collection step: filter and
clean the blocks, join the survivors with a blank line, normalize the whole. -/
def extract_tab_sections_text (blocks : List SectionBlock) : String :=
  normalize_text (String.intercalate "\n\n" (blocks.filterMap processBlock))

/-- Python `str.splitlines()` for the line breaks occurring here
(`\r\n`, `\r`, `\n`); no entry is produced after a terminating break. -/
def splitlinesAux : List Char → List Char → List String
  | acc, [] => if acc.isEmpty then [] else [String.mk acc.reverse]
  | acc, '\r' :: '\n' :: rest => String.mk acc.reverse :: splitlinesAux [] rest
  | acc, '\r' :: rest => String.mk acc.reverse :: splitlinesAux [] rest
  | acc, '\n' :: rest => String.mk acc.reverse :: splitlinesAux [] rest
  | acc, c :: rest => splitlinesAux (c :: acc) rest

def pySplitlines (s : String) : List String := splitlinesAux [] s.data

/-- `_guess_place_name`: first stripped line that is neither empty, the search
boilerplate, nor a tab label. -/
def guessPlaceNameGo : List String → String
  | [] => ""
  | ln :: rest =>
    let l := pyStrip ln
    if l = "" then guessPlaceNameGo rest
    else if l = "네이버지도 검색" then guessPlaceNameGo rest
    else if l = "홈" || l = "메뉴" || l = "정보" || l = "소식" || l = "리뷰" || l = "사진" then
      guessPlaceNameGo rest
    else l

def guess_place_name (text : String) : String := guessPlaceNameGo (pySplitlines text)

/-- `[ln.strip() for ln in text.splitlines() if ln.strip()]`. -/
def nonBlankLines (text : String) : List String :=
  ((pySplitlines text).map pyStrip).filter fun l => l ≠ ""

/-- `_guess_business_hours`: join the first three lines mentioning business
hours or last order with " / ", then strip. -/
def guess_business_hours (text : String) : String :=
  let lines := nonBlankLines text
  let candidates := lines.filter fun ln => strContainsSub ln "영업" || strContainsSub ln "라스트오더"
  pyStrip (String.intercalate " / " (candidates.take 3))

/-- The immutable record produced by a crawl. -/
structure CrawledPlaceData where
  place_id : String
  source_url : String
  home_text : String
  menu_text : String
  info_text : String
  news_text : String
deriving DecidableEq

/-- A Python `dict[str, str]`, embedded as its lookup function:
`d k = none` models a missing key, `d k = some v` a present one. -/
abbrev PyDict : Type := String → Option String

/-- `out[k] = v`. -/
def dset (d : PyDict) (k v : String) : PyDict := fun q => if q = k then some v else d q

/-- Python truthiness of `out.get(k)`: falsy iff the key is missing or holds
the empty string. -/
def blankO : Option String → Bool
  | none => true
  | some s => s == ""

def parkingKeywords : List String := ["주차", "편의", "무선 인터넷", "포장"]

/-- `merge_blog_input_with_crawl`: keep existing user input, backfill empty
fields from the crawl, and append the map link to `location_info`. -/
def merge_blog_input_with_crawl (input_dict : PyDict) (crawled : CrawledPlaceData) : PyDict :=
  let out := input_dict
  let pn := guess_place_name crawled.home_text
  let out := if pn != "" && blankO (out "place_name") then dset out "place_name" pn else out
  let bh := guess_business_hours (crawled.home_text ++ "\n" ++ crawled.info_text)
  let out := if bh != "" && blankO (out "business_hours") then dset out "business_hours" bh
    else out
  let la := "지도 링크: " ++ crawled.source_url
  let out :=
    if !blankO (out "location_info") then
      dset out "location_info" (pyStrip ((out "location_info").getD "") ++ "\n" ++ la)
    else dset out "location_info" la
  let out := if blankO (out "home_tab_info") then dset out "home_tab_info" crawled.home_text
    else out
  let out := if blankO (out "menu_tab_info") then dset out "menu_tab_info" crawled.menu_text
    else out
  let out := if blankO (out "info_tab_info") then dset out "info_tab_info" crawled.info_text
    else out
  let out := if blankO (out "news_tab_info") then dset out "news_tab_info" crawled.news_text
    else out
  let out :=
    if blankO (out "parking_or_tips") then
      let tips := (nonBlankLines crawled.info_text).filter
        fun ln => parkingKeywords.any fun kw => strContainsSub ln kw
      if tips != [] then dset out "parking_or_tips" (String.intercalate "\n" (tips.take 6))
      else out
    else out
  let out :=
    if blankO (out "target_keyword") then dset out "target_keyword" ((out "place_name").getD "")
    else out
  out

def mergerKeys : List String :=
  ["place_name", "business_hours", "location_info", "home_tab_info", "menu_tab_info",
   "info_tab_info", "news_tab_info", "parking_or_tips", "target_keyword"]

def backfillFields : List String :=
  ["place_name", "business_hours", "home_tab_info", "menu_tab_info", "info_tab_info",
   "news_tab_info", "parking_or_tips", "target_keyword"]

def wCrawl : CrawledPlaceData :=
  ⟨"123", "https://map.naver.com/p/entry/place/123?placePath=%2Fhome", "", "", "", ""⟩

def wDictC1 : PyDict := fun k => if k = "place_name" then some "본전돼지국밥" else none

def cexCrawl : CrawledPlaceData := ⟨"", "https://x/y", "", "", "", ""⟩

def cexDictC5 : PyDict := fun k => if k = "location_info" then some "Seoul " else none

def wDictC5 : PyDict := fun k => if k = "location_info" then some "Seoul" else none

def cexDictC6 : PyDict := fun k => if k = "location_info" then some " " else none

/-- Modelled after `urllib.parse.urljoin(base, href)` for the href shapes a
tab link can take (absolute URL, scheme-relative, absolute path, relative
path); the claims below do not depend on its exact value. -/
def urljoin (base href : String) : String :=
  if litIsPrefixOf "http://".data href.data || litIsPrefixOf "https://".data href.data then href
  else if litIsPrefixOf "//".data href.data then "https:" ++ href
  else if litIsPrefixOf "/".data href.data then base ++ href
  else base ++ "/" ++ href

/-- `result[key] = value` on the crawl's result dict (all four keys are
initialized, so plain `String`-valued). -/
def supd (f : String → String) (k v : String) : String → String :=
  fun q => if q = k then v else f q

/-- The fixed label-to-key table of `crawl_place_tabs`, in its Python dict
iteration order. -/
def label_to_key : List (String × String) :=
  [("홈", "home"), ("메뉴", "menu"), ("정보", "info"), ("소식", "news")]

/-- Everything the page session supplies to the crawl logic: whether the place
iframe was found, the discovered tab links, the extracted home-tab text (after
the expand retry loop), and the text extracted after navigating to a tab URL.
The expand-business-hours loop and the extraction fallback happen inside the
browser and are absorbed into `homeText` / `fetchTab`. -/
structure PageOracle where
  placeFrameFound : Bool
  tabLinks : String → Option String
  homeText : String
  fetchTab : String → String

/-- The body of the per-tab loop of `crawl_place_tabs`: skip the home tab,
record `""` for a tab whose link is missing or empty without navigating,
otherwise navigate to the joined tab URL (recorded in the trace) and store the
extracted text. -/
def tabLoopStep (links : String → Option String) (fetch : String → String)
    (acc : (String → String) × List (String × String)) (p : String × String) :
    (String → String) × List (String × String) :=
  if p.2 = "home" then acc
  else
    match links p.1 with
    | none => (supd acc.1 p.2 "", acc.2)
    | some href =>
      if href = "" then (supd acc.1 p.2 "", acc.2)
      else
        let url := urljoin "https://pcmap.place.naver.com" href
        (supd acc.1 p.2 (fetch url), acc.2 ++ [(p.2, url)])

/-- `crawl_place_tabs`: resolve the place id, build the canonical entry URL,
fail if the place iframe is absent, collect the home text, then run the tab
loop.  Returns the record together with the trace of tab navigations
performed, as `(key, url)` pairs. -/
def crawl_place_tabs (resolve : String → String) (po : PageOracle) (map_url : String) :
    Except PyError (CrawledPlaceData × List (String × String)) :=
  match extract_place_id resolve map_url with
  | .error e => .error e
  | .ok place_id =>
    let map_entry_home := "https://map.naver.com/p/entry/place/" ++ place_id
      ++ "?placePath=%2Fhome"
    if !po.placeFrameFound then .error (.runtimeError "네이버 장소 패널 iframe을 찾지 못했습니다.")
    else
      let init : String → String := supd (fun _ => "") "home" po.homeText
      let res := label_to_key.foldl (tabLoopStep po.tabLinks po.fetchTab) (init, [])
      .ok (⟨place_id, map_entry_home, res.1 "home", res.1 "menu", res.1 "info", res.1 "news"⟩,
        res.2)

def wUrl : String := "https://map.naver.com/p/entry/place/123"

def wOracle : PageOracle := ⟨true, fun _ => none, "", fun _ => ""⟩

def wData : CrawledPlaceData :=
  ⟨"123", "https://map.naver.com/p/entry/place/123?placePath=%2Fhome", "", "", "", ""⟩

/-- JS regex word character (`\w` without the unicode flag): ASCII only. -/
def isJsWordChar (c : Char) : Bool := c.isAlphanum || c = '_'

/-- `\b` after the matched time: end of string or a non-word character. -/
def boundaryAfter : List Char → Bool
  | [] => true
  | c :: _ => !(isJsWordChar c)

/-- Match `\d\x7b2\x7d:\d\x7b2\x7d\b` at the head of the list. -/
def twoDigitTimeAt : List Char → Bool
  | a :: b :: c :: d :: e :: rest =>
    a.isDigit && b.isDigit && c = ':' && d.isDigit && e.isDigit && boundaryAfter rest
  | _ => false

/-- Match `\d:\d\x7b2\x7d\b` at the head of the list. -/
def oneDigitTimeAt : List Char → Bool
  | a :: b :: c :: d :: rest =>
    a.isDigit && b = ':' && c.isDigit && d.isDigit && boundaryAfter rest
  | _ => false

/-- Match `\d\x7b1,2\x7d:\d\x7b2\x7d\b` at the head (greedy with backtracking:
the two alternatives cannot both apply). -/
def timeAtPos (s : List Char) : Bool := twoDigitTimeAt s || oneDigitTimeAt s

/-- `\b` before a position: start of string or previous character non-word. -/
def boundaryBefore : Option Char → Bool
  | none => true
  | some c => !(isJsWordChar c)

/-- Scan for `\b\d\x7b1,2\x7d:\d\x7b2\x7d\b` anywhere, tracking the previous
character for the leading boundary. -/
def timeScan : Option Char → List Char → Bool
  | _, [] => false
  | prev, c :: rest => (boundaryBefore prev && timeAtPos (c :: rest)) || timeScan (some c) rest

/-- `/\b\d\x7b1,2\x7d:\d\x7b2\x7d\b/.test(t)` of the expand-trigger script. -/
def hasTimePattern (t : String) : Bool := timeScan none t.data

/-- The candidate predicate of the expand-trigger script: trimmed visible text
is non-empty, contains an expand keyword, and contains a clock time or the
last-order keyword. -/
def expandCandidateHit (raw : String) : Bool :=
  let t := pyStrip raw
  t != "" && (strContainsSub t "펼쳐보기" || strContainsSub t "더보기")
    && (hasTimePattern t || strContainsSub t "라스트오더")

/-- `cands.find(...)` of the script: the first candidate satisfying the
predicate; the script clicks exactly this element when found. -/
def findExpandTarget (cands : List String) : Option String := cands.find? expandCandidateHit

/-- The two `frame.evaluate` calls of `_expand_business_hours`, as oracles:
the scroll nudge (result discarded) and the main script (the candidate
elements' visible texts in DOM order, from which the script computes its
boolean).  An `error` models the evaluation raising. -/
structure HoursFrame where
  scrollOutcome : Except String Unit
  panelOutcome : Except String (List String)

/-- `_expand_business_hours`: any exception in either evaluation is swallowed
and yields `False`; otherwise the result is whether a matching candidate was
found (and clicked). -/
def expand_business_hours (frame : HoursFrame) : Bool :=
  match frame.scrollOutcome with
  | .error _ => false
  | .ok _ =>
    match frame.panelOutcome with
    | .error _ => false
    | .ok cands => (findExpandTarget cands).isSome

lemma litIsPrefixOf_append (lit rest : List Char) : litIsPrefixOf lit (lit ++ rest) = true := by
  induction lit with
  | nil => rfl
  | cons a as ih => simp [litIsPrefixOf, ih]

lemma takeWhile_digits_append (ds post : List Char) (hdig : ∀ c ∈ ds, c.isDigit = true)
    (hpost : ∀ c, post.head? = some c → c.isDigit = false) :
    (ds ++ post).takeWhile Char.isDigit = ds := by
  induction ds with
  | nil =>
    cases post with
    | nil => rfl
    | cons c rest => simp [List.takeWhile, hpost c rfl]
  | cons d ds ih =>
    have hd : d.isDigit = true := hdig d (by simp)
    simp only [List.cons_append, List.takeWhile, hd]
    rw [List.append_eq, ih (fun c hc => hdig c (by simp [hc]))]

lemma litMatchAt_head (lit ds post : List Char) (hds : ds ≠ [])
    (hdig : ∀ c ∈ ds, c.isDigit = true)
    (hpost : ∀ c, post.head? = some c → c.isDigit = false) :
    litMatchAt lit (lit ++ ds ++ post) = some ds := by
  have h1 : litIsPrefixOf lit (lit ++ ds ++ post) = true := by
    rw [List.append_assoc]; exact litIsPrefixOf_append _ _
  have h2 : (lit ++ ds ++ post).drop lit.length = ds ++ post := by
    rw [List.append_assoc]; exact List.drop_left _ _
  simp only [litMatchAt, h1, h2, if_true, takeWhile_digits_append ds post hdig hpost]
  simp [List.isEmpty_iff, hds]

lemma searchLitDigits_found (lit ds post : List Char) (pre : List Char) (hds : ds ≠ [])
    (hdig : ∀ c ∈ ds, c.isDigit = true)
    (hpost : ∀ c, post.head? = some c → c.isDigit = false)
    (hpre : ∀ n < pre.length, litMatchAt lit ((pre ++ lit ++ ds ++ post).drop n) = none) :
    searchLitDigits lit (pre ++ lit ++ ds ++ post) = some ds := by
  induction pre with
  | nil =>
    have hmatch := litMatchAt_head lit ds post hds hdig hpost
    cases hs : lit ++ ds ++ post with
    | nil =>
      exfalso
      rcases List.append_eq_nil.mp hs with ⟨h1, -⟩
      rcases List.append_eq_nil.mp h1 with ⟨-, h3⟩
      exact hds h3
    | cons c rest =>
      rw [List.nil_append] at *
      rw [hs] at hmatch ⊢
      simp [searchLitDigits, hmatch]
  | cons a pre ih =>
    have h0 := hpre 0 (by simp)
    rw [List.drop_zero] at h0
    have : searchLitDigits lit (a :: (pre ++ lit ++ ds ++ post)) =
        searchLitDigits lit (pre ++ lit ++ ds ++ post) := by
      simp only [searchLitDigits]
      rw [show a :: (pre ++ lit ++ ds ++ post) = (a :: pre) ++ lit ++ ds ++ post by simp, h0]
    rw [show (a :: pre) ++ lit ++ ds ++ post = a :: (pre ++ lit ++ ds ++ post) by simp] at *
    rw [this]
    exact ih fun n hn => by
      have := hpre (n + 1) (by simpa using Nat.succ_lt_succ hn)
      simpa [List.drop_succ_cons] using this

/-- C2: for every URL that is `pre ++ shape ++ digits ++ post` for one of the
three recognized shapes, is already stripped, has no URL-shortener host, has no
earlier occurrence of the shape, and (for the later shapes) no match of the
higher-priority patterns, `extract_place_id` returns exactly the digit string:
the patterns `/entry/place/(\d+)`, `/place/(\d+)`, `placeId=(\d+)` are tried in
that fixed order and the first match's capture is returned. -/
theorem extract_place_id_patterns :
    (∀ (resolve : String → String) (url : String) (pre ds post : List Char),
      url.data = pre ++ "/entry/place/".data ++ ds ++ post →
      ds ≠ [] → (∀ c ∈ ds, c.isDigit = true) →
      (∀ c, post.head? = some c → c.isDigit = false) →
      (∀ n < pre.length, litMatchAt "/entry/place/".data (url.data.drop n) = none) →
      pyStrip url = url →
      strContainsSub (strLower (pyNetloc url)) "naver.me" = false →
      extract_place_id resolve url = .ok (String.mk ds)) ∧
    (∀ (resolve : String → String) (url : String) (pre ds post : List Char),
      url.data = pre ++ "/place/".data ++ ds ++ post →
      ds ≠ [] → (∀ c ∈ ds, c.isDigit = true) →
      (∀ c, post.head? = some c → c.isDigit = false) →
      (∀ n < pre.length, litMatchAt "/place/".data (url.data.drop n) = none) →
      pyStrip url = url →
      strContainsSub (strLower (pyNetloc url)) "naver.me" = false →
      searchLitDigits "/entry/place/".data url.data = none →
      extract_place_id resolve url = .ok (String.mk ds)) ∧
    (∀ (resolve : String → String) (url : String) (pre ds post : List Char),
      url.data = pre ++ "placeId=".data ++ ds ++ post →
      ds ≠ [] → (∀ c ∈ ds, c.isDigit = true) →
      (∀ c, post.head? = some c → c.isDigit = false) →
      (∀ n < pre.length, litMatchAt "placeId=".data (url.data.drop n) = none) →
      pyStrip url = url →
      strContainsSub (strLower (pyNetloc url)) "naver.me" = false →
      searchLitDigits "/entry/place/".data url.data = none →
      searchLitDigits "/place/".data url.data = none →
      extract_place_id resolve url = .ok (String.mk ds)) := by
  have hne : ∀ (url : String) (lit pre ds post : List Char), lit ≠ [] →
      url.data = pre ++ lit ++ ds ++ post → url ≠ "" := by
    intro url lit pre ds post hlit hurl h
    rw [h] at hurl
    have : ([] : List Char) = pre ++ lit ++ ds ++ post := hurl
    rcases List.append_eq_nil.mp this.symm with ⟨h1, -⟩
    rcases List.append_eq_nil.mp h1 with ⟨h2, -⟩
    rcases List.append_eq_nil.mp h2 with ⟨-, h3⟩
    exact hlit h3
  refine ⟨?_, ?_, ?_⟩
  · intro resolve url pre ds post hurl hds hdig hpost hpre hstrip hhost
    have hu : url ≠ "" := hne url _ pre ds post (by decide) hurl
    rw [hurl] at hpre
    have hsearch : searchLitDigits "/entry/place/".data url.data = some ds := by
      rw [hurl]; exact searchLitDigits_found _ ds post pre hds hdig hpost hpre
    simp [extract_place_id, hstrip, hu, hhost, hsearch]
  · intro resolve url pre ds post hurl hds hdig hpost hpre hstrip hhost hn1
    have hu : url ≠ "" := hne url _ pre ds post (by decide) hurl
    rw [hurl] at hpre
    have hsearch : searchLitDigits "/place/".data url.data = some ds := by
      rw [hurl]; exact searchLitDigits_found _ ds post pre hds hdig hpost hpre
    simp [extract_place_id, hstrip, hu, hhost, hn1, hsearch]
  · intro resolve url pre ds post hurl hds hdig hpost hpre hstrip hhost hn1 hn2
    have hu : url ≠ "" := hne url _ pre ds post (by decide) hurl
    rw [hurl] at hpre
    have hsearch : searchLitDigits "placeId=".data url.data = some ds := by
      rw [hurl]; exact searchLitDigits_found _ ds post pre hds hdig hpost hpre
    simp [extract_place_id, hstrip, hu, hhost, hn1, hn2, hsearch]

/-- Witness for `extract_place_id_patterns` at three concrete URLs, one per
pattern shape. -/
theorem extract_place_id_patterns_witness :
    extract_place_id id "https://map.naver.com/p/entry/place/1616011574?c=15" = .ok "1616011574" ∧
    extract_place_id id "https://pcmap.place.naver.com/place/55?x=1" = .ok "55" ∧
    extract_place_id id "https://map.naver.com/p/search/x?from=map&placeId=777" = .ok "777" := by
  refine ⟨?_, ?_, ?_⟩
  · exact extract_place_id_patterns.1 id _ "https://map.naver.com/p".data "1616011574".data
      "?c=15".data (by decide) (by decide) (by decide) (by decide) (by decide) (by decide)
      (by decide)
  · exact extract_place_id_patterns.2.1 id _ "https://pcmap.place.naver.com".data "55".data
      "?x=1".data (by decide) (by decide) (by decide) (by decide) (by decide) (by decide)
      (by decide) (by decide)
  · exact extract_place_id_patterns.2.2 id _ "https://map.naver.com/p/search/x?from=map&".data
      "777".data "".data (by decide) (by decide) (by decide) (by decide) (by decide) (by decide)
      (by decide) (by decide) (by decide)

/-- C3: an empty or whitespace-only URL fails with the validation `ValueError`,
a non-empty URL (with no shortener host) matching no identifier pattern fails
with the not-found `ValueError`, and the two error values are distinct, so a
caller can tell them apart. -/
theorem extract_place_id_errors :
    (∀ (resolve : String → String) (url : String), pyStrip url = "" →
      extract_place_id resolve url = .error (.valueError validationMsg)) ∧
    (∀ (resolve : String → String) (url : String), pyStrip url ≠ "" →
      strContainsSub (strLower (pyNetloc (pyStrip url))) "naver.me" = false →
      searchLitDigits "/entry/place/".data (pyStrip url).data = none →
      searchLitDigits "/place/".data (pyStrip url).data = none →
      searchLitDigits "placeId=".data (pyStrip url).data = none →
      extract_place_id resolve url = .error (.valueError notFoundMsg)) ∧
    PyError.valueError validationMsg ≠ PyError.valueError notFoundMsg := by
  refine ⟨?_, ?_, by decide⟩
  · intro resolve url h
    simp [extract_place_id, h]
  · intro resolve url h hhost hn1 hn2 hn3
    simp [extract_place_id, h, hhost, hn1, hn2, hn3]

/-- Witness for `extract_place_id_errors`: a whitespace-only URL and a URL with
no identifier pattern. -/
theorem extract_place_id_errors_witness :
    extract_place_id id "   " = .error (.valueError validationMsg) ∧
    extract_place_id id "https://example.com/" = .error (.valueError notFoundMsg) :=
  ⟨extract_place_id_errors.1 id "   " (by decide),
   extract_place_id_errors.2.1 id "https://example.com/" (by decide) (by decide) (by decide)
     (by decide) (by decide)⟩

/-- C4: the action-button block `"출발 도착 저장 거리뷰 공유 알림받기"` is
discarded for any header, the short block `"짧다"` is discarded for any header
because its normalized length is below 10, and the business-hours block is
retained with only whitespace normalization applied (here: unchanged, it being
already normalized). -/
theorem section_filter_examples :
    (∀ title : String, processBlock ⟨title, "출발 도착 저장 거리뷰 공유 알림받기"⟩ = none) ∧
    (∀ title : String, processBlock ⟨title, "짧다"⟩ = none) ∧
    (normalize_text "짧다").length < 10 ∧
    extract_tab_sections_text
      [⟨"", "출발 도착 저장 거리뷰 공유 알림받기"⟩, ⟨"", "짧다"⟩,
       ⟨"", "영업시간\n매일 11:00-21:00 라스트오더 20:30"⟩]
      = "영업시간\n매일 11:00-21:00 라스트오더 20:30" ∧
    normalize_text "영업시간\n매일 11:00-21:00 라스트오더 20:30"
      = "영업시간\n매일 11:00-21:00 라스트오더 20:30" :=
  ⟨fun _ => rfl, fun _ => rfl, by decide, by decide, by decide⟩

/-- C7: the header has its trailing digits stripped (`"메뉴2"` becomes
`"메뉴"`); a body already starting with the stripped header is used alone; a
body not starting with the header gets the header and a newline prepended. -/
theorem header_dedup_examples :
    pyStrip (stripTrailingDigits (pyStrip "메뉴2")) = "메뉴" ∧
    processBlock ⟨"메뉴2", "메뉴\n순두부찌개 9,000원"⟩ = some "메뉴\n순두부찌개 9,000원" ∧
    processBlock ⟨"영업정보", "매일 11:00-21:00 라스트오더 20:30"⟩
      = some "영업정보\n매일 11:00-21:00 라스트오더 20:30" :=
  ⟨by decide, by decide, by decide⟩

lemma merge_at_place_name (d : PyDict) (c : CrawledPlaceData) :
    merge_blog_input_with_crawl d c "place_name" =
      if guess_place_name c.home_text != "" && blankO (d "place_name")
      then some (guess_place_name c.home_text) else d "place_name" := by
  simp [merge_blog_input_with_crawl, dset, ite_apply]

lemma merge_at_business_hours (d : PyDict) (c : CrawledPlaceData) :
    merge_blog_input_with_crawl d c "business_hours" =
      if guess_business_hours (c.home_text ++ "\n" ++ c.info_text) != ""
          && blankO (d "business_hours")
      then some (guess_business_hours (c.home_text ++ "\n" ++ c.info_text))
      else d "business_hours" := by
  simp [merge_blog_input_with_crawl, dset, ite_apply]

lemma merge_at_location_info (d : PyDict) (c : CrawledPlaceData) :
    merge_blog_input_with_crawl d c "location_info" =
      if blankO (d "location_info") then some ("지도 링크: " ++ c.source_url)
      else some (pyStrip ((d "location_info").getD "") ++ "\n"
        ++ ("지도 링크: " ++ c.source_url)) := by
  simp [merge_blog_input_with_crawl, dset, ite_apply]
  by_cases h : blankO (d "location_info") = true <;> simp [h]

lemma merge_at_home_tab (d : PyDict) (c : CrawledPlaceData) :
    merge_blog_input_with_crawl d c "home_tab_info" =
      if blankO (d "home_tab_info") then some c.home_text else d "home_tab_info" := by
  simp [merge_blog_input_with_crawl, dset, ite_apply]

lemma merge_at_menu_tab (d : PyDict) (c : CrawledPlaceData) :
    merge_blog_input_with_crawl d c "menu_tab_info" =
      if blankO (d "menu_tab_info") then some c.menu_text else d "menu_tab_info" := by
  simp [merge_blog_input_with_crawl, dset, ite_apply]

lemma merge_at_info_tab (d : PyDict) (c : CrawledPlaceData) :
    merge_blog_input_with_crawl d c "info_tab_info" =
      if blankO (d "info_tab_info") then some c.info_text else d "info_tab_info" := by
  simp [merge_blog_input_with_crawl, dset, ite_apply]

lemma merge_at_news_tab (d : PyDict) (c : CrawledPlaceData) :
    merge_blog_input_with_crawl d c "news_tab_info" =
      if blankO (d "news_tab_info") then some c.news_text else d "news_tab_info" := by
  simp [merge_blog_input_with_crawl, dset, ite_apply]

lemma merge_at_parking (d : PyDict) (c : CrawledPlaceData) :
    merge_blog_input_with_crawl d c "parking_or_tips" =
      if blankO (d "parking_or_tips")
          && ((nonBlankLines c.info_text).filter
                fun ln => parkingKeywords.any fun kw => strContainsSub ln kw) != []
      then some (String.intercalate "\n"
        (((nonBlankLines c.info_text).filter
            fun ln => parkingKeywords.any fun kw => strContainsSub ln kw).take 6))
      else d "parking_or_tips" := by
  simp [merge_blog_input_with_crawl, dset, ite_apply]
  by_cases h : blankO (d "parking_or_tips") = true <;> simp [h]

lemma merge_at_target_keyword (d : PyDict) (c : CrawledPlaceData) :
    merge_blog_input_with_crawl d c "target_keyword" =
      if blankO (d "target_keyword")
      then some ((merge_blog_input_with_crawl d c "place_name").getD "")
      else d "target_keyword" := by
  simp [merge_blog_input_with_crawl, dset, ite_apply]

lemma merge_at_other (d : PyDict) (c : CrawledPlaceData) (k : String) (hk : k ∉ mergerKeys) :
    merge_blog_input_with_crawl d c k = d k := by
  simp [mergerKeys] at hk
  obtain ⟨h1, h2, h3, h4, h5, h6, h7, h8, h9⟩ := hk
  simp [merge_blog_input_with_crawl, dset, ite_apply, h1, h2, h3, h4, h5, h6, h7, h8, h9]

lemma blankO_of_some_ne (o : Option String) (v : String) (h : o = some v) (hv : v ≠ "") :
    blankO o = false := by simp [h, blankO, hv]

/-- C1: the merger is backfill-only on the eight recognized backfill fields —
a non-empty input value is returned unchanged — and every key it does not
recognize passes through with its value (or absence) unchanged. -/
theorem merge_backfill_frame (d : PyDict) (c : CrawledPlaceData) :
    (∀ f ∈ backfillFields, ∀ v, d f = some v → v ≠ "" →
      merge_blog_input_with_crawl d c f = some v) ∧
    (∀ k, k ∉ mergerKeys → merge_blog_input_with_crawl d c k = d k) := by
  constructor
  · intro f hf v hv hvne
    simp only [backfillFields, List.mem_cons, List.not_mem_nil, or_false] at hf
    rcases hf with rfl | rfl | rfl | rfl | rfl | rfl | rfl | rfl <;>
      simp [merge_at_place_name, merge_at_business_hours, merge_at_home_tab, merge_at_menu_tab,
        merge_at_info_tab, merge_at_news_tab, merge_at_parking, merge_at_target_keyword,
        hv, blankO, hvne]
  · intro k hk
    exact merge_at_other d c k hk

/-- Witness for `merge_backfill_frame`: a pre-filled `place_name` survives and
an unrecognized key passes through. -/
theorem merge_backfill_frame_witness :
    merge_blog_input_with_crawl wDictC1 wCrawl "place_name" = some "본전돼지국밥" ∧
    merge_blog_input_with_crawl wDictC1 wCrawl "extra_notes" = wDictC1 "extra_notes" :=
  ⟨(merge_backfill_frame wDictC1 wCrawl).1 "place_name" (by decide) "본전돼지국밥" (by decide)
      (by decide),
   (merge_backfill_frame wDictC1 wCrawl).2 "extra_notes" (by decide)⟩

/-- C5 (amended): `merge_blog_input_with_crawl` always appends the line
`지도 링크: <source_url>` to `location_info`; when the existing value is
truthy, the result is the STRIPPED existing value, a newline, then the map-link
line; when it is missing or empty, the result is exactly the map-link line. -/
theorem merge_location_append (d : PyDict) (c : CrawledPlaceData) :
    (blankO (d "location_info") = true →
      merge_blog_input_with_crawl d c "location_info"
        = some ("지도 링크: " ++ c.source_url)) ∧
    (∀ s, d "location_info" = some s → s ≠ "" →
      merge_blog_input_with_crawl d c "location_info"
        = some (pyStrip s ++ "\n" ++ ("지도 링크: " ++ c.source_url))) := by
  constructor
  · intro h
    simp [merge_at_location_info, h]
  · intro s hs hne
    simp [merge_at_location_info, hs, blankO, hne]

/-- Counterexample to C5 as stated: for the existing value `"Seoul "` (with a
trailing space) the merger strips it first, so the result is NOT the existing
value followed by a newline and the map-link line. -/
theorem merge_location_append_counterexample :
    merge_blog_input_with_crawl cexDictC5 cexCrawl "location_info"
      = some "Seoul\n지도 링크: https://x/y" ∧
    merge_blog_input_with_crawl cexDictC5 cexCrawl "location_info"
      ≠ some ("Seoul " ++ "\n" ++ "지도 링크: https://x/y") := by
  constructor <;> decide

/-- Witness for `merge_location_append` at the spec's own example and at an
absent `location_info`. -/
theorem merge_location_append_witness :
    merge_blog_input_with_crawl wDictC5 cexCrawl "location_info"
      = some "Seoul\n지도 링크: https://x/y" ∧
    merge_blog_input_with_crawl (fun _ => none) cexCrawl "location_info"
      = some "지도 링크: https://x/y" :=
  ⟨((merge_location_append wDictC5 cexCrawl).2 "Seoul" (by decide) (by decide)).trans (by decide),
   ((merge_location_append (fun _ => none) cexCrawl).1 (by decide)).trans (by decide)⟩

lemma append_ne_empty_left (a b : String) (ha : a ≠ "") : a ++ b ≠ "" := by
  intro h
  have hd : (a ++ b).data = [] := by rw [h]
  rw [String.data_append] at hd
  rcases List.append_eq_nil.mp hd with ⟨h1, -⟩
  exact ha (String.ext h1)

lemma append_ne_empty_right (a b : String) (hb : b ≠ "") : a ++ b ≠ "" := by
  intro h
  have hd : (a ++ b).data = [] := by rw [h]
  rw [String.data_append] at hd
  rcases List.append_eq_nil.mp hd with ⟨-, h2⟩
  exact hb (String.ext h2)

lemma blankO_some_ne (x : String) (hx : x ≠ "") : blankO (some x) = false := by
  simp [blankO, hx]

lemma merge_location_not_blank (d : PyDict) (c : CrawledPlaceData) :
    blankO (merge_blog_input_with_crawl d c "location_info") = false := by
  rw [merge_at_location_info]
  by_cases h : blankO (d "location_info") = true
  · rw [if_pos h]
    exact blankO_some_ne _ (append_ne_empty_left "지도 링크: " c.source_url (by decide))
  · rw [if_neg h]
    exact blankO_some_ne _
      (append_ne_empty_right _ _ (append_ne_empty_left "지도 링크: " c.source_url (by decide)))

lemma merge_twice_place_name (d : PyDict) (c : CrawledPlaceData) :
    merge_blog_input_with_crawl (merge_blog_input_with_crawl d c) c "place_name"
      = merge_blog_input_with_crawl d c "place_name" := by
  rw [merge_at_place_name (merge_blog_input_with_crawl d c) c, merge_at_place_name d c]
  by_cases hpn : (guess_place_name c.home_text != "") = true
  · have hne : guess_place_name c.home_text ≠ "" := by
      simpa [bne, beq_eq_false_iff_ne] using hpn
    by_cases hb : blankO (d "place_name") = true
    · simp [hpn, hb, blankO_some_ne _ hne]
    · simp [hpn, hb]
  · simp [Bool.not_eq_true] at hpn
    simp [hpn]

lemma merge_twice_business_hours (d : PyDict) (c : CrawledPlaceData) :
    merge_blog_input_with_crawl (merge_blog_input_with_crawl d c) c "business_hours"
      = merge_blog_input_with_crawl d c "business_hours" := by
  rw [merge_at_business_hours (merge_blog_input_with_crawl d c) c, merge_at_business_hours d c]
  by_cases hbh : (guess_business_hours (c.home_text ++ "\n" ++ c.info_text) != "") = true
  · have hne : guess_business_hours (c.home_text ++ "\n" ++ c.info_text) ≠ "" := by
      simpa [bne, beq_eq_false_iff_ne] using hbh
    by_cases hb : blankO (d "business_hours") = true
    · simp [hbh, hb, blankO_some_ne _ hne]
    · simp [hbh, hb]
  · simp [Bool.not_eq_true] at hbh
    simp [hbh]

lemma merge_twice_home_tab (d : PyDict) (c : CrawledPlaceData) :
    merge_blog_input_with_crawl (merge_blog_input_with_crawl d c) c "home_tab_info"
      = merge_blog_input_with_crawl d c "home_tab_info" := by
  rw [merge_at_home_tab (merge_blog_input_with_crawl d c) c, merge_at_home_tab d c]
  by_cases hb : blankO (d "home_tab_info") = true <;> simp [hb]

lemma merge_twice_menu_tab (d : PyDict) (c : CrawledPlaceData) :
    merge_blog_input_with_crawl (merge_blog_input_with_crawl d c) c "menu_tab_info"
      = merge_blog_input_with_crawl d c "menu_tab_info" := by
  rw [merge_at_menu_tab (merge_blog_input_with_crawl d c) c, merge_at_menu_tab d c]
  by_cases hb : blankO (d "menu_tab_info") = true <;> simp [hb]

lemma merge_twice_info_tab (d : PyDict) (c : CrawledPlaceData) :
    merge_blog_input_with_crawl (merge_blog_input_with_crawl d c) c "info_tab_info"
      = merge_blog_input_with_crawl d c "info_tab_info" := by
  rw [merge_at_info_tab (merge_blog_input_with_crawl d c) c, merge_at_info_tab d c]
  by_cases hb : blankO (d "info_tab_info") = true <;> simp [hb]

lemma merge_twice_news_tab (d : PyDict) (c : CrawledPlaceData) :
    merge_blog_input_with_crawl (merge_blog_input_with_crawl d c) c "news_tab_info"
      = merge_blog_input_with_crawl d c "news_tab_info" := by
  rw [merge_at_news_tab (merge_blog_input_with_crawl d c) c, merge_at_news_tab d c]
  by_cases hb : blankO (d "news_tab_info") = true <;> simp [hb]

lemma merge_twice_parking (d : PyDict) (c : CrawledPlaceData) :
    merge_blog_input_with_crawl (merge_blog_input_with_crawl d c) c "parking_or_tips"
      = merge_blog_input_with_crawl d c "parking_or_tips" := by
  rw [merge_at_parking (merge_blog_input_with_crawl d c) c, merge_at_parking d c]
  by_cases hb : blankO (d "parking_or_tips") = true <;>
    by_cases ht : (((nonBlankLines c.info_text).filter
        fun ln => parkingKeywords.any fun kw => strContainsSub ln kw) != []) = true <;>
    simp [hb, ht]

lemma merge_twice_target_keyword (d : PyDict) (c : CrawledPlaceData) :
    merge_blog_input_with_crawl (merge_blog_input_with_crawl d c) c "target_keyword"
      = merge_blog_input_with_crawl d c "target_keyword" := by
  rw [merge_at_target_keyword (merge_blog_input_with_crawl d c) c, merge_twice_place_name]
  rw [merge_at_target_keyword d c]
  by_cases hb : blankO (d "target_keyword") = true <;> simp [hb]

/-- C6 (amended): merging the same crawl result into an already merged record
changes nothing except `location_info`, where the append step runs again:
the previous value is stripped and the map-link line is appended after a
newline. -/
theorem merge_idempotent_except_location (d : PyDict) (c : CrawledPlaceData) (k : String) :
    merge_blog_input_with_crawl (merge_blog_input_with_crawl d c) c k =
      if k = "location_info" then
        some (pyStrip ((merge_blog_input_with_crawl d c "location_info").getD "") ++ "\n"
          ++ ("지도 링크: " ++ c.source_url))
      else merge_blog_input_with_crawl d c k := by
  by_cases hk : k = "location_info"
  · subst hk
    rw [if_pos rfl, merge_at_location_info (merge_blog_input_with_crawl d c) c]
    simp [merge_location_not_blank d c]
  · rw [if_neg hk]
    by_cases h1 : k = "place_name"
    · subst h1; exact merge_twice_place_name d c
    by_cases h2 : k = "business_hours"
    · subst h2; exact merge_twice_business_hours d c
    by_cases h3 : k = "home_tab_info"
    · subst h3; exact merge_twice_home_tab d c
    by_cases h4 : k = "menu_tab_info"
    · subst h4; exact merge_twice_menu_tab d c
    by_cases h5 : k = "info_tab_info"
    · subst h5; exact merge_twice_info_tab d c
    by_cases h6 : k = "news_tab_info"
    · subst h6; exact merge_twice_news_tab d c
    by_cases h7 : k = "parking_or_tips"
    · subst h7; exact merge_twice_parking d c
    by_cases h8 : k = "target_keyword"
    · subst h8; exact merge_twice_target_keyword d c
    have hmem : k ∉ mergerKeys := by
      simp [mergerKeys, h1, h2, h3, h4, h5, h6, h7, h8, hk]
    rw [merge_at_other (merge_blog_input_with_crawl d c) c k hmem,
      merge_at_other d c k hmem]

/-- Counterexample to C6 as stated: starting from a whitespace-only
`location_info`, the second merge strips the previously produced value before
appending, so the result is NOT the first merge's value with the map-link line
appended. -/
theorem merge_idempotent_counterexample :
    merge_blog_input_with_crawl (merge_blog_input_with_crawl cexDictC6 cexCrawl) cexCrawl
        "location_info"
      = some "지도 링크: https://x/y\n지도 링크: https://x/y" ∧
    merge_blog_input_with_crawl (merge_blog_input_with_crawl cexDictC6 cexCrawl) cexCrawl
        "location_info"
      ≠ some (((merge_blog_input_with_crawl cexDictC6 cexCrawl "location_info").getD "")
          ++ "\n" ++ "지도 링크: https://x/y") := by
  constructor <;> decide

lemma supd_same (f : String → String) (k v : String) : supd f k v k = v := by simp [supd]

lemma tabLoopStep_blank (links : String → Option String) (fetch : String → String)
    (acc : (String → String) × List (String × String)) (label key : String)
    (hkey : key ≠ "home") (hlink : blankO (links label) = true) :
    tabLoopStep links fetch acc (label, key) = (supd acc.1 key "", acc.2) := by
  simp only [tabLoopStep, if_neg hkey]
  cases h : links label with
  | none => rfl
  | some href =>
    have he : href = "" := by simpa [blankO, h] using hlink
    simp [he]

lemma tabLoopStep_other_fst (links : String → Option String) (fetch : String → String)
    (acc : (String → String) × List (String × String)) (p : String × String) (key : String)
    (hp : p.2 ≠ key) :
    (tabLoopStep links fetch acc p).1 key = acc.1 key := by
  simp only [tabLoopStep]
  by_cases hh : p.2 = "home"
  · simp [hh]
  · simp only [hh, if_false]
    cases h : links p.1 with
    | none => simp [supd, Ne.symm hp]
    | some href => by_cases he : href = "" <;> simp [he, supd, Ne.symm hp]

lemma tabLoopStep_snd (links : String → Option String) (fetch : String → String)
    (acc : (String → String) × List (String × String)) (p : String × String) :
    (tabLoopStep links fetch acc p).2 = acc.2 ∨
    ∃ url, (tabLoopStep links fetch acc p).2 = acc.2 ++ [(p.2, url)] := by
  simp only [tabLoopStep]
  by_cases hh : p.2 = "home"
  · left; simp [hh]
  · simp only [hh, if_false]
    cases h : links p.1 with
    | none => left; rfl
    | some href =>
      by_cases he : href = ""
      · left; simp [he]
      · right
        exact ⟨urljoin "https://pcmap.place.naver.com" href, by simp [he]⟩

lemma tabLoop_missing (links : String → Option String) (fetch : String → String)
    (key label : String) (hkey : key ≠ "home") (hlink : blankO (links label) = true) :
    ∀ (L : List (String × String)) (acc : (String → String) × List (String × String)),
      (∀ p ∈ L, p.2 = key → p = (label, key)) →
      (∀ q ∈ acc.2, q.1 ≠ key) →
      ((L.foldl (tabLoopStep links fetch) acc).1 key
          = if (label, key) ∈ L then "" else acc.1 key) ∧
      (∀ q ∈ (L.foldl (tabLoopStep links fetch) acc).2, q.1 ≠ key)
  | [], acc, _, hacc => ⟨by simp, by simpa using hacc⟩
  | p :: L, acc, hL, hacc => by
    rw [List.foldl_cons]
    by_cases hp : p.2 = key
    · have hpe : p = (label, key) := hL p (by simp) hp
      rw [hpe, tabLoopStep_blank links fetch acc label key hkey hlink]
      have hrec := tabLoop_missing links fetch key label hkey hlink L
        (supd acc.1 key "", acc.2)
        (fun q hq hq2 => hL q (List.mem_cons_of_mem _ hq) hq2) hacc
      refine ⟨?_, hrec.2⟩
      rw [hrec.1]
      by_cases hm : (label, key) ∈ L <;> simp [hm, supd_same]
    · have hne : p ≠ (label, key) := by
        intro h; rw [h] at hp; exact hp rfl
      have hstep2 : ∀ q ∈ (tabLoopStep links fetch acc p).2, q.1 ≠ key := by
        rcases tabLoopStep_snd links fetch acc p with h | ⟨url, h⟩
        · rw [h]; exact hacc
        · rw [h]; intro q hq
          rcases List.mem_append.mp hq with hq | hq
          · exact hacc q hq
          · simp only [List.mem_singleton] at hq
            rw [hq]; exact hp
      have hrec := tabLoop_missing links fetch key label hkey hlink L
        (tabLoopStep links fetch acc p)
        (fun q hq hq2 => hL q (List.mem_cons_of_mem _ hq) hq2) hstep2
      refine ⟨?_, hrec.2⟩
      rw [hrec.1, tabLoopStep_other_fst links fetch acc p key hp]
      by_cases hm : (label, key) ∈ L <;> simp [hm, Ne.symm hne]

lemma empty_append_str (s : String) : "" ++ s = s := by
  apply String.ext
  rw [String.data_append]
  rfl

/-- C8: on a successful crawl, a tab (menu, info, or news) whose label has no
link in the discovered tab map gets the empty string recorded for its text,
and no navigation for that tab appears in the navigation trace. -/
theorem crawl_missing_tab_empty
    (resolve : String → String) (po : PageOracle) (map_url : String)
    (data : CrawledPlaceData) (navs : List (String × String))
    (h : crawl_place_tabs resolve po map_url = .ok (data, navs)) :
    (blankO (po.tabLinks "메뉴") = true → data.menu_text = "" ∧ ∀ q ∈ navs, q.1 ≠ "menu") ∧
    (blankO (po.tabLinks "정보") = true → data.info_text = "" ∧ ∀ q ∈ navs, q.1 ≠ "info") ∧
    (blankO (po.tabLinks "소식") = true → data.news_text = "" ∧ ∀ q ∈ navs, q.1 ≠ "news") := by
  unfold crawl_place_tabs at h
  cases hx : extract_place_id resolve map_url with
  | error e => rw [hx] at h; exact Except.noConfusion h
  | ok pid =>
    rw [hx] at h
    cases hpf : po.placeFrameFound with
    | false => rw [hpf] at h; exact Except.noConfusion h
    | true =>
      rw [hpf] at h
      simp only [Bool.not_true, Bool.false_eq_true, if_false, Except.ok.injEq,
        Prod.mk.injEq] at h
      obtain ⟨h1, h2⟩ := h
      subst h1
      subst h2
      refine ⟨fun hlink => ?_, fun hlink => ?_, fun hlink => ?_⟩
      · have hres := tabLoop_missing po.tabLinks po.fetchTab "menu" "메뉴" (by decide) hlink
          label_to_key (supd (fun _ => "") "home" po.homeText, []) (by decide) (by simp)
        exact ⟨by rw [hres.1, if_pos (by decide)], hres.2⟩
      · have hres := tabLoop_missing po.tabLinks po.fetchTab "info" "정보" (by decide) hlink
          label_to_key (supd (fun _ => "") "home" po.homeText, []) (by decide) (by simp)
        exact ⟨by rw [hres.1, if_pos (by decide)], hres.2⟩
      · have hres := tabLoop_missing po.tabLinks po.fetchTab "news" "소식" (by decide) hlink
          label_to_key (supd (fun _ => "") "home" po.homeText, []) (by decide) (by simp)
        exact ⟨by rw [hres.1, if_pos (by decide)], hres.2⟩

/-- Witness for `crawl_missing_tab_empty` on a concrete crawl in which no tab
links are discovered. -/
theorem crawl_missing_tab_empty_witness :
    wData.news_text = "" ∧ wData.menu_text = "" ∧ wData.info_text = "" :=
  ⟨((crawl_missing_tab_empty id wOracle wUrl wData [] (by decide)).2.2 (by decide)).1,
   ((crawl_missing_tab_empty id wOracle wUrl wData [] (by decide)).1 (by decide)).1,
   ((crawl_missing_tab_empty id wOracle wUrl wData [] (by decide)).2.1 (by decide)).1⟩

/-- C10: every successfully crawled record carries the place id extracted from
the input URL and the canonical entry URL built from it, and the map-link line
the merger appends to `location_info` always ends in that canonical URL. -/
theorem crawl_canonical_source_url
    (resolve : String → String) (po : PageOracle) (map_url : String)
    (data : CrawledPlaceData) (navs : List (String × String))
    (h : crawl_place_tabs resolve po map_url = .ok (data, navs)) :
    extract_place_id resolve map_url = .ok data.place_id ∧
    data.source_url = "https://map.naver.com/p/entry/place/" ++ data.place_id
      ++ "?placePath=%2Fhome" ∧
    ∀ d : PyDict, ∃ t, merge_blog_input_with_crawl d data "location_info"
      = some (t ++ ("지도 링크: " ++ data.source_url)) := by
  unfold crawl_place_tabs at h
  cases hx : extract_place_id resolve map_url with
  | error e => rw [hx] at h; exact Except.noConfusion h
  | ok pid =>
    rw [hx] at h
    cases hpf : po.placeFrameFound with
    | false => rw [hpf] at h; exact Except.noConfusion h
    | true =>
      rw [hpf] at h
      simp only [Bool.not_true, Bool.false_eq_true, if_false, Except.ok.injEq,
        Prod.mk.injEq] at h
      obtain ⟨h1, h2⟩ := h
      subst h1
      subst h2
      refine ⟨rfl, rfl, fun d => ?_⟩
      rw [merge_at_location_info]
      by_cases hb : blankO (d "location_info") = true
      · exact ⟨"", by rw [if_pos hb, empty_append_str]⟩
      · exact ⟨_, by rw [if_neg hb]⟩

/-- Witness for `crawl_canonical_source_url` on a concrete crawl. -/
theorem crawl_canonical_source_url_witness :
    extract_place_id id wUrl = .ok wData.place_id ∧
    wData.source_url = "https://map.naver.com/p/entry/place/" ++ wData.place_id
      ++ "?placePath=%2Fhome" :=
  ⟨(crawl_canonical_source_url id wOracle wUrl wData [] (by decide)).1,
   (crawl_canonical_source_url id wOracle wUrl wData [] (by decide)).2.1⟩

/-- C9: an exception in either evaluation step makes `_expand_business_hours`
return `False` (never propagate), and it returns `True` only when a candidate
matching both an expand keyword and a time-pattern-or-last-order condition was
found (the script clicks that same candidate); the last part characterizes the
candidate predicate. -/
theorem expand_hours_error_policy :
    (∀ (f : HoursFrame) (e : String), f.scrollOutcome = .error e →
      expand_business_hours f = false) ∧
    (∀ (f : HoursFrame) (e : String), f.panelOutcome = .error e →
      expand_business_hours f = false) ∧
    (∀ f : HoursFrame, expand_business_hours f = true →
      ∃ cands t, f.panelOutcome = .ok cands ∧ findExpandTarget cands = some t ∧
        t ∈ cands ∧ expandCandidateHit t = true) ∧
    (∀ t : String, expandCandidateHit t = true ↔
      (pyStrip t ≠ "" ∧
        (strContainsSub (pyStrip t) "펼쳐보기" = true ∨ strContainsSub (pyStrip t) "더보기" = true) ∧
        (hasTimePattern (pyStrip t) = true ∨ strContainsSub (pyStrip t) "라스트오더" = true))) := by
  refine ⟨?_, ?_, ?_, ?_⟩
  · intro f e he
    obtain ⟨sc, pa⟩ := f
    simp only at he
    simp [expand_business_hours, he]
  · intro f e he
    obtain ⟨sc, pa⟩ := f
    simp only at he
    cases sc with
    | error e2 => simp [expand_business_hours]
    | ok u => simp [expand_business_hours, he]
  · intro f hf
    obtain ⟨sc, pa⟩ := f
    cases sc with
    | error e2 => simp [expand_business_hours] at hf
    | ok u =>
      cases pa with
      | error e2 => simp [expand_business_hours] at hf
      | ok cands =>
        simp only [expand_business_hours] at hf
        obtain ⟨t, ht⟩ := Option.isSome_iff_exists.mp hf
        exact ⟨cands, t, rfl, ht, List.mem_of_find?_eq_some ht, List.find?_some ht⟩
  · intro t
    simp [expandCandidateHit, bne_iff_ne, and_assoc]

/-- Witness for `expand_hours_error_policy`: concrete failing evaluations and
a concrete matching candidate text. -/
theorem expand_hours_error_policy_witness :
    expand_business_hours ⟨.error "eval raised", .ok []⟩ = false ∧
    expand_business_hours ⟨.ok (), .error "eval raised"⟩ = false ∧
    expandCandidateHit "영업시간 매일 11:00 - 21:00 펼쳐보기" = true :=
  ⟨expand_hours_error_policy.1 ⟨.error "eval raised", .ok []⟩ "eval raised" rfl,
   expand_hours_error_policy.2.1 ⟨.ok (), .error "eval raised"⟩ "eval raised" rfl,
   (expand_hours_error_policy.2.2.2 "영업시간 매일 11:00 - 21:00 펼쳐보기").mpr
     ⟨by decide, Or.inl (by decide), Or.inl (by decide)⟩⟩
